import Mathlib

/-!
Verification development for the NetworkMonitor probing/alerting engine
(`src/probe.py`).  The Python source is shallowly embedded: floats are
modelled as rationals (`ℚ`), Python `None` as `Option`, raw ping process
output as `String`, and the outcome of external effects (the ping
subprocess, the HTTP request, storage writes) as explicit oracle values.
The regular-expression scans of `run_ping` are embedded as character-list
scanners with the same matching semantics as the Python patterns
(left-to-right scan, greedy digit runs, lazy gap for the POSIX summary).
-/

/-- ASCII whitespace, matching the characters Python's regex class matches
on the ASCII plane (the ping texts involved are ASCII). -/
def isPySpace (c : Char) : Bool :=
  c = ' ' || c = '\t' || c = '\n' || c = '\x0d' || c = '\x0b' || c = '\x0c'

/-- Numeric value of a run of decimal digit characters.  -/
def digitsToNat (ds : List Char) : ℕ :=
  ds.foldl (fun n c => 10 * n + (c.toNat - 48)) 0

/-- Match a literal character sequence at the head of the input, returning
the remainder on success.  -/
def dropLit : List Char → List Char → Option (List Char)
  | [], s => some s
  | _ :: _, [] => none
  | l :: ls, c :: cs => if c = l then dropLit ls cs else none

/-- Consume a (possibly empty) run of whitespace: regex fragment `\s*`. -/
def dropSpaces : List Char → List Char
  | [] => []
  | c :: cs => if isPySpace c then dropSpaces cs else c :: cs

/-- Split off the longest digit run at the head: regex fragment `\d*`. -/
def takeDigits : List Char → List Char × List Char
  | [] => ([], [])
  | c :: cs =>
    if c.isDigit then
      let (ds, r) := takeDigits cs
      (c :: ds, r)
    else ([], c :: cs)

/-- Try to match `time[=<]\s*(\d+)\s*ms` at exactly this position, giving
the captured integer and the remainder after the match. -/
def matchTimeAt (s : List Char) : Option (ℕ × List Char) :=
  match dropLit ['t', 'i', 'm', 'e'] s with
  | none => none
  | some s1 =>
    match s1 with
    | [] => none
    | c :: s2 =>
      if c = '=' || c = '<' then
        let s3 := dropSpaces s2
        let (ds, s4) := takeDigits s3
        if ds.isEmpty then none
        else
          match dropLit ['m', 's'] (dropSpaces s4) with
          | none => none
          | some s6 => some (digitsToNat ds, s6)
      else none

/-- Fuelled non-overlapping left-to-right scan for the time tokens; a
successful match always consumes at least eight characters, so fuel equal
to the input length is enough.  -/
def timeScanFuel : ℕ → List Char → List ℕ
  | 0, _ => []
  | _ + 1, [] => []
  | fuel + 1, c :: cs =>
    match matchTimeAt (c :: cs) with
    | some (v, rest) => v :: timeScanFuel fuel rest
    | none => timeScanFuel fuel cs

/-- `re.findall(r"time[=<]\s*(\d+)\s*ms", out)` followed by `int`:
every rtt token of the output, in order of appearance. -/
def timeFindall (s : List Char) : List ℕ :=
  timeScanFuel s.length s

/-- Try to match the Windows summary
`Packets: Sent = (\d+), Received = (\d+), Lost = (\d+)\s*\((\d+)% loss\)`
at exactly this position, giving (sent, received, lost, loss_pct). -/
def matchWinAt (s : List Char) : Option (ℕ × ℕ × ℕ × ℕ) :=
  match dropLit "Packets: Sent = ".toList s with
  | none => none
  | some s1 =>
    let (d1, s2) := takeDigits s1
    if d1.isEmpty then none else
    match dropLit ", Received = ".toList s2 with
    | none => none
    | some s3 =>
      let (d2, s4) := takeDigits s3
      if d2.isEmpty then none else
      match dropLit ", Lost = ".toList s4 with
      | none => none
      | some s5 =>
        let (d3, s6) := takeDigits s5
        if d3.isEmpty then none else
        match dropLit ['('] (dropSpaces s6) with
        | none => none
        | some s7 =>
          let (d4, s8) := takeDigits s7
          if d4.isEmpty then none else
          match dropLit "% loss)".toList s8 with
          | none => none
          | some _ => some (digitsToNat d1, digitsToNat d2, digitsToNat d3, digitsToNat d4)

/-- `re.search` of the Windows summary: first position, scanning left to
right, at which `matchWinAt` succeeds. -/
def winSearch : List Char → Option (ℕ × ℕ × ℕ × ℕ)
  | [] => none
  | c :: cs =>
    match matchWinAt (c :: cs) with
    | some r => some r
    | none => winSearch cs

/-- Exact rational value of a decimal literal `intPart.fracPart`, as
captured by `(\d+\.?\d*)` (Python then applies `float`). -/
def ratOfDec (intPart fracPart : List Char) : ℚ :=
  (digitsToNat intPart : ℚ) + (digitsToNat fracPart : ℚ) / (10 ^ fracPart.length : ℚ)

/-- Try to match the head of the POSIX summary pattern
`(\d+)\s+packets transmitted\,\s+(\d+)\s+received\,` at exactly this
position, giving (transmitted, received, remainder). -/
def matchPosixHead (s : List Char) : Option (ℕ × ℕ × List Char) :=
  let (d1, s1) := takeDigits s
  if d1.isEmpty then none else
  let s2 := dropSpaces s1
  if s2.length = s1.length then none else
  match dropLit "packets transmitted,".toList s2 with
  | none => none
  | some s3 =>
    let s4 := dropSpaces s3
    if s4.length = s3.length then none else
    let (d2, s5) := takeDigits s4
    if d2.isEmpty then none else
    let s6 := dropSpaces s5
    if s6.length = s5.length then none else
    match dropLit "received,".toList s6 with
    | none => none
    | some s7 => some (digitsToNat d1, digitsToNat d2, s7)

/-- Try to match the tail `(\d+\.?\d*)\% packet loss` at exactly this
position, giving the captured decimal as an exact rational. -/
def matchLossTail (s : List Char) : Option ℚ :=
  let (d1, s1) := takeDigits s
  if d1.isEmpty then none else
  match s1 with
  | '.' :: s2 =>
    let (d2, s3) := takeDigits s2
    match dropLit "% packet loss".toList s3 with
    | none => none
    | some _ => some (ratOfDec d1 d2)
  | s1' =>
    match dropLit "% packet loss".toList s1' with
    | none => none
    | some _ => some (digitsToNat d1 : ℚ)

/-- The lazy gap `.*?` followed by the loss tail: starting right after
`received,`, try the tail at each successive position, consuming only
non-newline characters (Python `.` does not match `\n`). -/
def lazyLossScan : List Char → Option ℚ
  | [] => none
  | c :: cs =>
    match matchLossTail (c :: cs) with
    | some v => some v
    | none => if c = '\n' then none else lazyLossScan cs

/-- `re.search` of the POSIX summary
`(\d+)\s+packets transmitted\,\s+(\d+)\s+received\,.*?(\d+\.?\d*)\% packet loss`:
leftmost start position at which the head and, after the lazy gap, the
loss tail match; gives (sent, received, loss_pct). -/
def posixSearch : List Char → Option (ℕ × ℕ × ℚ)
  | [] => none
  | c :: cs =>
    match matchPosixHead (c :: cs) with
    | some (a, b, rest) =>
      match lazyLossScan rest with
      | some v => some (a, b, v)
      | none => posixSearch cs
    | none => posixSearch cs

/-- Thresholds and ping configuration constants of `probe.py`. -/
def LATENCY_ALERT_MS : ℚ := 200

/-- Packet-loss alert threshold (`PACKET_LOSS_ALERT_PCT = 20.0`). -/
def PACKET_LOSS_ALERT_PCT : ℚ := 20

/-- Fixed ping packet count (`PING_COUNT = 4`). -/
def PING_COUNT : ℕ := 4

/-- Per-packet ping timeout in milliseconds (`PING_TIMEOUT_MS = 1000`). -/
def PING_TIMEOUT_MS : ℕ := 1000

/-- The total timeout handed to `subprocess.run` on line 103:
`count * (timeout_ms / 1000.0) + 5`, in seconds. -/
def subprocessTimeoutS (count timeout_ms : ℕ) : ℚ :=
  (count : ℚ) * ((timeout_ms : ℚ) / 1000) + 5

/-- Outcome of the external ping process: either `subprocess.run` raised
(failure to launch, or the total-timeout expiry) with a message, or it
returned and `out = proc.stdout + proc.stderr`. -/
inductive PingOutcome where
  | fail (msg : String)
  | ok (out : String)

/-- The dictionary `run_ping` returns. In the source `sent`/`received`
are set on every path and `packet_loss_pct` is always a float, so these
fields are not optional. -/
structure PingResult where
  sent : ℕ
  received : ℕ
  packet_loss_pct : ℚ
  rtts : List ℕ
  avg_ms : Option ℚ
  min_ms : Option ℚ
  max_ms : Option ℚ
  raw_output : String
deriving DecidableEq, Repr

/-- `run_ping` (lines 94-147): on a process exception return the degraded
total-loss record; otherwise extract the rtt tokens, try the Windows
summary then the POSIX summary, compute avg/min/max from the rtts, and
fall back to the count-based estimate when neither summary matched. -/
def run_ping (count : ℕ) (po : PingOutcome) : PingResult :=
  match po with
  | .fail msg => ⟨count, 0, 100, [], none, none, none, msg⟩
  | .ok out =>
    let cs := out.toList
    let rtts := timeFindall cs
    let summary : Option (ℕ × ℕ × ℚ) :=
      match winSearch cs with
      | some (s, r, _, p) => some (s, r, (p : ℚ))
      | none =>
        match posixSearch cs with
        | some (s, r, p) => some (s, r, p)
        | none => none
    let avg_ms : Option ℚ :=
      if rtts.isEmpty then none else some ((rtts.sum : ℚ) / (rtts.length : ℚ))
    let min_ms : Option ℚ :=
      match rtts with
      | [] => none
      | x :: xs => some ((xs.foldl Nat.min x : ℕ) : ℚ)
    let max_ms : Option ℚ :=
      match rtts with
      | [] => none
      | x :: xs => some ((xs.foldl Nat.max x : ℕ) : ℚ)
    match summary with
    | some (s, r, p) => ⟨s, r, p, rtts, avg_ms, min_ms, max_ms, out⟩
    | none =>
      ⟨count, rtts.length,
       (((count : ℚ) - (rtts.length : ℚ)) / (count : ℚ)) * 100,
       rtts, avg_ms, min_ms, max_ms, out⟩

/-- Outcome of the HTTP GET: either it returned (elapsed wall-clock in ms
and a status code) or `requests.get` raised with a message. -/
inductive HttpOutcome where
  | ok (elapsed_ms : ℚ) (status : ℤ)
  | fail (msg : String)

/-- The dictionary `run_http` returns. -/
structure HttpResult where
  avg_ms : Option ℚ
  http_status : Option ℤ
  error : Option String
deriving DecidableEq, Repr

/-- `run_http` (lines 150-161): success gives timing and status with no
error; an exception gives null timing/status and the message. -/
def run_http : HttpOutcome → HttpResult
  | .ok e st => ⟨some e, some st, none⟩
  | .fail m => ⟨none, none, some m⟩

/-- A configured endpoint (`ENDPOINTS` entries): `endpoint.get("prefer",
"icmp")` defaults to `"icmp"`, and every config entry carries the key. -/
structure Endpoint where
  name : String
  host : String
  prefer : String
deriving DecidableEq, Repr

/-- The configured endpoint list of `probe.py` (lines 28-34). -/
def ENDPOINTS : List Endpoint :=
  [⟨"Google DNS", "8.8.8.8", "icmp"⟩,
   ⟨"Google", "www.google.com", "http"⟩,
   ⟨"Yahoo", "www.yahoo.com", "http"⟩,
   ⟨"Bing", "www.bing.com", "http"⟩,
   ⟨"Cloudflare DNS", "1.1.1.1", "icmp"⟩]

/-- The `row` dictionary built by `probe_one`: one Measurement. -/
structure Measurement where
  timestamp : String
  name : String
  host : String
  method : Option String
  avg_ms : Option ℚ
  min_ms : Option ℚ
  max_ms : Option ℚ
  rtts : List ℕ
  sent : Option ℕ
  received : Option ℕ
  packet_loss_pct : Option ℚ
  http_status : Option ℤ
  error : Option String
deriving DecidableEq, Repr

/-- Python truthiness of a nullable float: `None` and `0.0` are falsy. -/
def optQTruthy : Option ℚ → Bool
  | none => false
  | some q => decide (q ≠ 0)

/-- `probe_one` (lines 207-261).  The external effects are passed in as
oracles: `po` is what the ping subprocess would do, `ho` what the HTTP
GET would do, `ts` the timestamp taken at entry.  `prefer != "http"`
selects the ICMP-primary branch with HTTP fallback on total loss
(`row['packet_loss_pct'] >= 100.0`); otherwise HTTP is primary and the
ping only populates packet counters, backfilling `min_ms`/`max_ms` (and
`rtts` when non-empty) under the Python-truthiness test
`if not row['min_ms'] and ping_result.get("min_ms")`. -/
def probe_one (ep : Endpoint) (ts : String) (po : PingOutcome) (ho : HttpOutcome) :
    Measurement :=
  let row : Measurement :=
    { timestamp := ts, name := ep.name, host := ep.host, method := none,
      avg_ms := none, min_ms := none, max_ms := none, rtts := [],
      sent := none, received := none, packet_loss_pct := none,
      http_status := none, error := none }
  if ep.prefer ≠ "http" then
    let ping_result := run_ping PING_COUNT po
    let row := { row with
      method := some "icmp", avg_ms := ping_result.avg_ms,
      min_ms := ping_result.min_ms, max_ms := ping_result.max_ms,
      rtts := ping_result.rtts, sent := some ping_result.sent,
      received := some ping_result.received,
      packet_loss_pct := some ping_result.packet_loss_pct,
      error := none }
    if 100 ≤ ping_result.packet_loss_pct then
      let http_result := run_http ho
      { row with
        method := some "http", avg_ms := http_result.avg_ms,
        http_status := http_result.http_status, error := http_result.error }
    else row
  else
    let http_result := run_http ho
    let row := { row with
      method := some "http", avg_ms := http_result.avg_ms,
      http_status := http_result.http_status, error := http_result.error }
    let ping_result := run_ping PING_COUNT po
    let row := { row with
      sent := some ping_result.sent,
      received := some ping_result.received,
      packet_loss_pct := some ping_result.packet_loss_pct }
    if !optQTruthy row.min_ms && optQTruthy ping_result.min_ms then
      let row := { row with
        min_ms := ping_result.min_ms,
        max_ms := ping_result.max_ms }
      if !ping_result.rtts.isEmpty then { row with rtts := ping_result.rtts }
      else row
    else row

/-- An alert record. The `message` display string of the source (an
f-string with one-decimal float formatting) is presentational and not
modelled; all fields the evaluation rules determine are. -/
structure Alert where
  timestamp : String
  name : String
  host : String
  metric : String
  value : ℚ
  threshold : ℚ
deriving DecidableEq, Repr

/-- The alert-list construction of `check_and_record_alerts` (lines
264-285); the recording loop over the produced list (lines 286-288) is
modelled in the cycle runner below. -/
def check_alerts (row : Measurement) : List Alert :=
  let alerts : List Alert := []
  let alerts :=
    match row.avg_ms with
    | some a =>
      if LATENCY_ALERT_MS < a then
        alerts ++ [⟨row.timestamp, row.name, row.host, "latency_ms", a, LATENCY_ALERT_MS⟩]
      else alerts
    | none => alerts
  let alerts :=
    match row.packet_loss_pct with
    | some p =>
      if PACKET_LOSS_ALERT_PCT ≤ p then
        alerts ++ [⟨row.timestamp, row.name, row.host, "packet_loss_pct", p, PACKET_LOSS_ALERT_PCT⟩]
      else alerts
    | none => alerts
  let alerts :=
    match row.received, row.http_status with
    | some 0, none => alerts ++ [⟨row.timestamp, row.name, row.host, "unreachable", 1, 0⟩]
    | _, _ => alerts
  alerts

/-- Outcome of one storage write (`append_csv`, `insert_db`,
`insert_alert`): either it returned, or it raised with a message. -/
inductive StoreOutcome where
  | ok
  | err (msg : String)

/-- Oracle for one cycle: for the `i`-th endpoint of the list, the
timestamp taken at `probe_one` entry, the two probe outcomes, and the
outcomes of the three kinds of storage writes.  `alertDb` is the outcome
of the `insert_alert` loop as a whole; it is only consulted when the
endpoint produced at least one alert (no alerts, no write). -/
structure CycleEnv where
  ts : ℕ → String
  ping : ℕ → PingOutcome
  http : ℕ → HttpOutcome
  csv : ℕ → StoreOutcome
  db : ℕ → StoreOutcome
  alertDb : ℕ → StoreOutcome

/-- The per-endpoint loop of `run_once` (lines 294-323), from the `i`-th
endpoint on.  Returns the Measurements produced by `probe_one` for the
endpoints actually reached, and the message of the first uncaught storage
exception if one occurred.  The source wraps neither `probe_one` nor the
three storage calls in a `try`: an exception from `append_csv`,
`insert_db` or `insert_alert` propagates and ends the loop (the cloud
push of lines 305-323 is inside its own `try` and `push_to_cloud_async`
swallows worker errors, so it never ends the loop and is not modelled).
`row['rtts'] = row.get('rtts') or []` is the Python-truthiness rewrite on
line 298. -/
def run_once_from (env : CycleEnv) : List Endpoint → ℕ → List Measurement × Option String
  | [], _ => ([], none)
  | ep :: rest, i =>
    let m := probe_one ep (env.ts i) (env.ping i) (env.http i)
    let m := { m with rtts := if m.rtts.isEmpty then [] else m.rtts }
    match env.csv i with
    | .err e => ([m], some e)
    | .ok =>
      match env.db i with
      | .err e => ([m], some e)
      | .ok =>
        let as := check_alerts m
        let aw := if as.isEmpty then StoreOutcome.ok else env.alertDb i
        match aw with
        | .err e => ([m], some e)
        | .ok =>
          let (ms, stop) := run_once_from env rest (i + 1)
          (m :: ms, stop)

/-- `run_once` (lines 292-323) over a configured endpoint list: probe,
persist and alert-check every endpoint in order (`init_db`, which only
issues `CREATE TABLE IF NOT EXISTS`, is not modelled). -/
def run_once (env : CycleEnv) (eps : List Endpoint) : List Measurement × Option String :=
  run_once_from env eps 0

/-- Count-consistency of a ping outcome: any parsed summary reports
`Received ≤ Sent`, and when neither summary matches, the number of rtt
tokens is at most the configured count.  Real ping output satisfies this;
the source does not enforce it (used to state the amended C5). -/
def consistentCounts (count : ℕ) : PingOutcome → Bool
  | .fail _ => true
  | .ok out =>
    match winSearch out.toList with
    | some (s, r, _, _) => decide (r ≤ s)
    | none =>
      match posixSearch out.toList with
      | some (s, r, _) => decide (r ≤ s)
      | none => decide ((timeFindall out.toList).length ≤ count)

/-- Whether `run_ping` takes the count-based fallback path: the process
raised, or no summary pattern matched (used to state the amended C6). -/
def usesFallback : PingOutcome → Bool
  | .fail _ => true
  | .ok out => (winSearch out.toList).isNone && (posixSearch out.toList).isNone

/-- Python truthiness evaluates `None` to false. -/
theorem optQTruthy_none : optQTruthy none = false := rfl

/-- In every `run_ping` result, `avg_ms` is null exactly when no rtt
token was extracted. -/
theorem run_ping_avg_none_iff (c : ℕ) (po : PingOutcome) :
    (run_ping c po).avg_ms = none ↔ (run_ping c po).rtts = [] := by
  cases po with
  | fail m => simp [run_ping]
  | ok out =>
    simp only [run_ping]
    split <;> simp_all

/-- In every `run_ping` result, `min_ms` is null exactly when no rtt
token was extracted. -/
theorem run_ping_min_none_iff (c : ℕ) (po : PingOutcome) :
    (run_ping c po).min_ms = none ↔ (run_ping c po).rtts = [] := by
  cases po with
  | fail m => simp [run_ping]
  | ok out =>
    simp only [run_ping]
    split <;> simp_all <;> split <;> simp_all

/-- Branch behaviour of `probe_one`: ICMP preferred, loss below total,
no HTTP fallback (lines 219-233). -/
theorem probe_one_icmp_nofb (ep : Endpoint) (ts : String) (po : PingOutcome)
    (ho : HttpOutcome) (h1 : ep.prefer ≠ "http")
    (h2 : ¬ 100 ≤ (run_ping PING_COUNT po).packet_loss_pct) :
    probe_one ep ts po ho =
      { timestamp := ts, name := ep.name, host := ep.host, method := some "icmp",
        avg_ms := (run_ping PING_COUNT po).avg_ms,
        min_ms := (run_ping PING_COUNT po).min_ms,
        max_ms := (run_ping PING_COUNT po).max_ms,
        rtts := (run_ping PING_COUNT po).rtts,
        sent := some (run_ping PING_COUNT po).sent,
        received := some (run_ping PING_COUNT po).received,
        packet_loss_pct := some (run_ping PING_COUNT po).packet_loss_pct,
        http_status := none, error := none } := by
  unfold probe_one
  rw [if_pos h1, if_neg h2]

/-- Branch behaviour of `probe_one`: ICMP preferred, total loss, HTTP
fallback overwrites method/avg/status/error (lines 233-240). -/
theorem probe_one_icmp_fb (ep : Endpoint) (ts : String) (po : PingOutcome)
    (ho : HttpOutcome) (h1 : ep.prefer ≠ "http")
    (h2 : 100 ≤ (run_ping PING_COUNT po).packet_loss_pct) :
    probe_one ep ts po ho =
      { timestamp := ts, name := ep.name, host := ep.host, method := some "http",
        avg_ms := (run_http ho).avg_ms,
        min_ms := (run_ping PING_COUNT po).min_ms,
        max_ms := (run_ping PING_COUNT po).max_ms,
        rtts := (run_ping PING_COUNT po).rtts,
        sent := some (run_ping PING_COUNT po).sent,
        received := some (run_ping PING_COUNT po).received,
        packet_loss_pct := some (run_ping PING_COUNT po).packet_loss_pct,
        http_status := (run_http ho).http_status,
        error := (run_http ho).error } := by
  unfold probe_one
  rw [if_pos h1, if_pos h2]

/-- Branch behaviour of `probe_one`: HTTP preferred and the ICMP
`min_ms` is truthy, so min/max/rtts are backfilled from the ICMP leg
(lines 241-259; the HTTP leg never sets `min_ms`, so
`not row['min_ms']` always holds in this branch). -/
theorem probe_one_http_truthy (ep : Endpoint) (ts : String) (po : PingOutcome)
    (ho : HttpOutcome) (h1 : ep.prefer = "http")
    (hm : optQTruthy (run_ping PING_COUNT po).min_ms = true) :
    probe_one ep ts po ho =
      { timestamp := ts, name := ep.name, host := ep.host, method := some "http",
        avg_ms := (run_http ho).avg_ms,
        min_ms := (run_ping PING_COUNT po).min_ms,
        max_ms := (run_ping PING_COUNT po).max_ms,
        rtts := (run_ping PING_COUNT po).rtts,
        sent := some (run_ping PING_COUNT po).sent,
        received := some (run_ping PING_COUNT po).received,
        packet_loss_pct := some (run_ping PING_COUNT po).packet_loss_pct,
        http_status := (run_http ho).http_status,
        error := (run_http ho).error } := by
  have hne : (run_ping PING_COUNT po).rtts ≠ [] := by
    intro he
    rw [← run_ping_min_none_iff] at he
    rw [he] at hm
    simp [optQTruthy] at hm
  unfold probe_one
  rw [if_neg (by simp [h1])]
  rw [if_pos (by simp [optQTruthy_none, hm])]
  rw [if_pos (by simp [hne])]

/-- Branch behaviour of `probe_one`: HTTP preferred and the ICMP
`min_ms` is falsy (null, or an all-zero rtt sample), so nothing is
backfilled (lines 241-259). -/
theorem probe_one_http_falsy (ep : Endpoint) (ts : String) (po : PingOutcome)
    (ho : HttpOutcome) (h1 : ep.prefer = "http")
    (hm : optQTruthy (run_ping PING_COUNT po).min_ms = false) :
    probe_one ep ts po ho =
      { timestamp := ts, name := ep.name, host := ep.host, method := some "http",
        avg_ms := (run_http ho).avg_ms,
        min_ms := none, max_ms := none, rtts := [],
        sent := some (run_ping PING_COUNT po).sent,
        received := some (run_ping PING_COUNT po).received,
        packet_loss_pct := some (run_ping PING_COUNT po).packet_loss_pct,
        http_status := (run_http ho).http_status,
        error := (run_http ho).error } := by
  unfold probe_one
  rw [if_neg (by simp [h1])]
  rw [if_neg (by simp [optQTruthy_none, hm])]

/-- Every Measurement carries its endpoint's name. -/
theorem probe_one_name (ep : Endpoint) (ts : String) (po : PingOutcome)
    (ho : HttpOutcome) : (probe_one ep ts po ho).name = ep.name := by
  by_cases h1 : ep.prefer ≠ "http"
  · by_cases h2 : 100 ≤ (run_ping PING_COUNT po).packet_loss_pct
    · rw [probe_one_icmp_fb ep ts po ho h1 h2]
    · rw [probe_one_icmp_nofb ep ts po ho h1 h2]
  · cases hm : optQTruthy (run_ping PING_COUNT po).min_ms
    · rw [probe_one_http_falsy ep ts po ho (not_not.mp h1) hm]
    · rw [probe_one_http_truthy ep ts po ho (not_not.mp h1) hm]

/-- Every Measurement takes `sent` and `received` from the ICMP leg, in
all branches of `probe_one`. -/
theorem probe_one_counts (ep : Endpoint) (ts : String) (po : PingOutcome)
    (ho : HttpOutcome) :
    (probe_one ep ts po ho).sent = some (run_ping PING_COUNT po).sent ∧
    (probe_one ep ts po ho).received = some (run_ping PING_COUNT po).received := by
  by_cases h1 : ep.prefer ≠ "http"
  · by_cases h2 : 100 ≤ (run_ping PING_COUNT po).packet_loss_pct
    · rw [probe_one_icmp_fb ep ts po ho h1 h2]; exact ⟨rfl, rfl⟩
    · rw [probe_one_icmp_nofb ep ts po ho h1 h2]; exact ⟨rfl, rfl⟩
  · cases hm : optQTruthy (run_ping PING_COUNT po).min_ms
    · rw [probe_one_http_falsy ep ts po ho (not_not.mp h1) hm]; exact ⟨rfl, rfl⟩
    · rw [probe_one_http_truthy ep ts po ho (not_not.mp h1) hm]; exact ⟨rfl, rfl⟩

/-- Under count-consistency of the raw output, `run_ping` reports
`received ≤ sent`. -/
theorem run_ping_received_le (c : ℕ) (po : PingOutcome)
    (h : consistentCounts c po = true) :
    (run_ping c po).received ≤ (run_ping c po).sent := by
  cases po with
  | fail m => simp [run_ping]
  | ok out =>
    simp only [run_ping, consistentCounts] at *
    rcases hw : winSearch out.toList with _ | ⟨s, r, l, p⟩
    · rcases hx : posixSearch out.toList with _ | ⟨s, r, p⟩
      · simp_all
      · simp_all
    · simp_all

/-- C1 (amended): per-endpoint probe failures are isolated — whenever
every storage write succeeds, every configured endpoint produces a
Measurement in the cycle and the cycle finishes without an uncaught
exception, whatever the ping and HTTP outcomes are.  (As stated the
claim is false: `run_once` wraps none of `append_csv`, `insert_db`,
`insert_alert` in a `try`, so a storage-write exception ends the cycle
early; see the counterexample.) -/
theorem C1_storage_ok_all_probed (env : CycleEnv) (eps : List Endpoint)
    (hcsv : ∀ i, env.csv i = StoreOutcome.ok)
    (hdb : ∀ i, env.db i = StoreOutcome.ok)
    (halert : ∀ i, env.alertDb i = StoreOutcome.ok) :
    (run_once env eps).1.map Measurement.name = eps.map Endpoint.name ∧
    (run_once env eps).2 = none := by
  unfold run_once
  suffices h : ∀ l i, (run_once_from env l i).1.map Measurement.name = l.map Endpoint.name ∧
      (run_once_from env l i).2 = none from h eps 0
  intro l
  induction l with
  | nil => intro i; simp [run_once_from]
  | cons ep rest ih =>
    intro i
    simp only [run_once_from, hcsv, hdb]
    have ha : ∀ m : Measurement,
        (if (check_alerts m).isEmpty then StoreOutcome.ok else env.alertDb i) =
          StoreOutcome.ok := by
      intro m
      split
      · rfl
      · exact halert i
    simp only [ha]
    simp only [List.map_cons]
    constructor
    · rw [(ih (i + 1)).1]
      simp [probe_one_name]
    · exact (ih (i + 1)).2

/-- C1 witness: a cycle over the configured `ENDPOINTS` in which every
probe fails but storage is healthy still yields one Measurement per
endpoint and no uncaught exception. -/
theorem C1_witness :
    (run_once
        ⟨fun _ => "T", fun _ => PingOutcome.fail "boom", fun _ => HttpOutcome.fail "conn",
         fun _ => StoreOutcome.ok, fun _ => StoreOutcome.ok, fun _ => StoreOutcome.ok⟩
        ENDPOINTS).1.map Measurement.name = ENDPOINTS.map Endpoint.name ∧
    (run_once
        ⟨fun _ => "T", fun _ => PingOutcome.fail "boom", fun _ => HttpOutcome.fail "conn",
         fun _ => StoreOutcome.ok, fun _ => StoreOutcome.ok, fun _ => StoreOutcome.ok⟩
        ENDPOINTS).2 = none :=
  C1_storage_ok_all_probed _ ENDPOINTS (fun _ => rfl) (fun _ => rfl) (fun _ => rfl)

/-- C1 counterexample: when `append_csv` raises for the first endpoint
("disk full"), the cycle over the configured `ENDPOINTS` ends with that
exception after the first endpoint — the remaining four endpoints are
never probed and produce no Measurement, contrary to the claim. -/
theorem C1_counterexample :
    (run_once
        ⟨fun _ => "T", fun _ => PingOutcome.fail "boom", fun _ => HttpOutcome.fail "conn",
         fun i => if i = 0 then StoreOutcome.err "disk full" else StoreOutcome.ok,
         fun _ => StoreOutcome.ok, fun _ => StoreOutcome.ok⟩
        ENDPOINTS).1.map Measurement.name = ["Google DNS"] ∧
    (run_once
        ⟨fun _ => "T", fun _ => PingOutcome.fail "boom", fun _ => HttpOutcome.fail "conn",
         fun i => if i = 0 then StoreOutcome.err "disk full" else StoreOutcome.ok,
         fun _ => StoreOutcome.ok, fun _ => StoreOutcome.ok⟩
        ENDPOINTS).2 = some "disk full" := by
  constructor <;> rfl

/-- C2: `check_and_record_alerts` produces exactly the alerts of the
three independent rules, in the order latency, packet loss, unreachable:
a latency alert with value `avg_ms` iff `avg_ms` is non-null and
exceeds 200; a packet-loss alert with value `packet_loss_pct` iff that
field is non-null and at least 20; an unreachable alert with value 1 and
threshold 0 iff `received` is non-null and zero while `http_status` is
null. -/
theorem C2_alert_rules (row : Measurement) :
    check_alerts row =
      (match row.avg_ms with
       | some a => if 200 < a then
           [⟨row.timestamp, row.name, row.host, "latency_ms", a, 200⟩] else []
       | none => []) ++
      (match row.packet_loss_pct with
       | some p => if 20 ≤ p then
           [⟨row.timestamp, row.name, row.host, "packet_loss_pct", p, 20⟩] else []
       | none => []) ++
      (match row.received, row.http_status with
       | some 0, none => [⟨row.timestamp, row.name, row.host, "unreachable", 1, 0⟩]
       | _, _ => []) := by
  unfold check_alerts
  rcases h1 : row.avg_ms with _ | a <;>
    rcases h2 : row.packet_loss_pct with _ | p <;>
      rcases h3 : row.received with _ | r <;>
        rcases h4 : row.http_status with _ | st <;>
          first
          | (rcases r with _ | r <;>
              simp [LATENCY_ALERT_MS, PACKET_LOSS_ALERT_PCT] <;> split_ifs <;> simp)
          | (simp [LATENCY_ALERT_MS, PACKET_LOSS_ALERT_PCT] <;> split_ifs <;> simp)

/-- C3: for an endpoint preferring ICMP, total loss (`packet_loss_pct ==
100`) triggers the HTTP fallback — the Measurement's method becomes
"http" with `avg_ms`, `http_status`, `error` taken from the HTTP
outcome while `sent`, `received`, `packet_loss_pct` are retained from
the ICMP attempt; when the loss is below 100 no HTTP probe runs (the
result does not depend on the HTTP oracle) and the method stays
"icmp". -/
theorem C3_total_loss_fallback (ep : Endpoint) (ts : String) (po : PingOutcome)
    (ho : HttpOutcome) (hp : ep.prefer = "icmp") :
    ((run_ping PING_COUNT po).packet_loss_pct = 100 →
      (probe_one ep ts po ho).method = some "http" ∧
      (probe_one ep ts po ho).avg_ms = (run_http ho).avg_ms ∧
      (probe_one ep ts po ho).http_status = (run_http ho).http_status ∧
      (probe_one ep ts po ho).error = (run_http ho).error ∧
      (probe_one ep ts po ho).sent = some (run_ping PING_COUNT po).sent ∧
      (probe_one ep ts po ho).received = some (run_ping PING_COUNT po).received ∧
      (probe_one ep ts po ho).packet_loss_pct = some (run_ping PING_COUNT po).packet_loss_pct) ∧
    ((run_ping PING_COUNT po).packet_loss_pct < 100 →
      (probe_one ep ts po ho).method = some "icmp" ∧
      (probe_one ep ts po ho).http_status = none ∧
      ∀ ho2, probe_one ep ts po ho = probe_one ep ts po ho2) := by
  have hne : ep.prefer ≠ "http" := by rw [hp]; decide
  constructor
  · intro h100
    rw [probe_one_icmp_fb ep ts po ho hne (le_of_eq h100.symm)]
    exact ⟨rfl, rfl, rfl, rfl, rfl, rfl, rfl⟩
  · intro hlt
    have hnot : ¬ 100 ≤ (run_ping PING_COUNT po).packet_loss_pct := not_le.mpr hlt
    refine ⟨?_, ?_, ?_⟩
    · rw [probe_one_icmp_nofb ep ts po ho hne hnot]
    · rw [probe_one_icmp_nofb ep ts po ho hne hnot]
    · intro ho2
      rw [probe_one_icmp_nofb ep ts po ho hne hnot,
          probe_one_icmp_nofb ep ts po ho2 hne hnot]

/-- C3 witness: an ICMP-preferring endpoint whose ping process fails
(total loss) and whose HTTP probe answers 200 ends with method "http"
and the HTTP status recorded. -/
theorem C3_witness :
    (run_ping PING_COUNT (PingOutcome.fail "boom")).packet_loss_pct = 100 ∧
    (probe_one ⟨"Google DNS", "8.8.8.8", "icmp"⟩ "T" (PingOutcome.fail "boom")
        (HttpOutcome.ok 50 200)).method = some "http" ∧
    (probe_one ⟨"Google DNS", "8.8.8.8", "icmp"⟩ "T" (PingOutcome.fail "boom")
        (HttpOutcome.ok 50 200)).http_status = some 200 :=
  have h := C3_total_loss_fallback ⟨"Google DNS", "8.8.8.8", "icmp"⟩ "T"
    (PingOutcome.fail "boom") (HttpOutcome.ok 50 200) rfl
  ⟨by decide, (h.1 (by decide)).1, by decide⟩

/-- C4: when neither summary pattern matches the raw output, `run_ping`
falls back to `sent = count`, `received` = number of extracted rtt
tokens, and `packet_loss_pct = (sent - received) / sent * 100`.  (The
positivity hypothesis marks the domain on which the Python code does
not raise `ZeroDivisionError`; `probe.py` always calls with count 4.) -/
theorem C4_fallback_estimate (count : ℕ) (out : String)
    (hc : 0 < count)
    (hw : winSearch out.toList = none) (hx : posixSearch out.toList = none) :
    (run_ping count (PingOutcome.ok out)).sent = count ∧
    (run_ping count (PingOutcome.ok out)).received = (timeFindall out.toList).length ∧
    (run_ping count (PingOutcome.ok out)).packet_loss_pct =
      (((count : ℚ) - ((timeFindall out.toList).length : ℚ)) / (count : ℚ)) * 100 := by
  have := hc
  simp only [run_ping, hw, hx]
  exact ⟨trivial, trivial, trivial⟩

/-- C4 witness: output with four `time=Nms` tokens and no recognizable
summary line yields sent 4, received 4 and zero packet loss. -/
theorem C4_witness :
    0 < 4 ∧
    winSearch "time=1ms time=2ms time=3ms time=4ms".toList = none ∧
    posixSearch "time=1ms time=2ms time=3ms time=4ms".toList = none ∧
    (run_ping 4 (PingOutcome.ok "time=1ms time=2ms time=3ms time=4ms")).sent = 4 ∧
    (run_ping 4 (PingOutcome.ok "time=1ms time=2ms time=3ms time=4ms")).received = 4 ∧
    (run_ping 4 (PingOutcome.ok "time=1ms time=2ms time=3ms time=4ms")).packet_loss_pct = 0 := by
  have h := C4_fallback_estimate 4 "time=1ms time=2ms time=3ms time=4ms"
    (by decide) (by decide) (by decide)
  have hl : timeFindall "time=1ms time=2ms time=3ms time=4ms".toList = [1, 2, 3, 4] := by
    decide
  refine ⟨by decide, by decide, by decide, h.1, by decide, ?_⟩
  rw [h.2.2, hl]
  norm_num

/-- C5 (amended): `received ≤ sent` holds for every Measurement whose
ping outcome is count-consistent — the degraded failure result always,
the fallback estimate when the output carries at most `count` rtt
tokens, and a parsed summary whose own numbers satisfy it.  (As stated
over all raw outputs the claim is false: the parser trusts the text; see
the counterexample with five rtt tokens against a configured count of
four.) -/
theorem C5_received_le_sent (ep : Endpoint) (ts : String) (po : PingOutcome)
    (ho : HttpOutcome) (h : consistentCounts PING_COUNT po = true) :
    ∀ r s : ℕ, (probe_one ep ts po ho).received = some r →
      (probe_one ep ts po ho).sent = some s → r ≤ s := by
  intro r s hr hs
  obtain ⟨h1, h2⟩ := probe_one_counts ep ts po ho
  rw [h1] at hs
  rw [h2] at hr
  cases Option.some.inj hr
  cases Option.some.inj hs
  exact run_ping_received_le PING_COUNT po h

/-- C5 witness: a normal POSIX summary with 4/4 packets gives a
Measurement with `received = sent = 4`. -/
theorem C5_witness :
    consistentCounts PING_COUNT
        (PingOutcome.ok "4 packets transmitted, 4 received, 0% packet loss") = true ∧
    (probe_one ⟨"Google DNS", "8.8.8.8", "icmp"⟩ "T"
        (PingOutcome.ok "4 packets transmitted, 4 received, 0% packet loss")
        (HttpOutcome.fail "conn")).received = some 4 ∧
    (probe_one ⟨"Google DNS", "8.8.8.8", "icmp"⟩ "T"
        (PingOutcome.ok "4 packets transmitted, 4 received, 0% packet loss")
        (HttpOutcome.fail "conn")).sent = some 4 ∧
    (4 : ℕ) ≤ 4 := by
  refine ⟨by decide, by decide, by decide, ?_⟩
  exact C5_received_le_sent ⟨"Google DNS", "8.8.8.8", "icmp"⟩ "T"
    (PingOutcome.ok "4 packets transmitted, 4 received, 0% packet loss")
    (HttpOutcome.fail "conn") (by decide) 4 4 (by decide) (by decide)

/-- C5 counterexample: raw output with five rtt tokens and no summary
line (as ping produces under duplicate replies) makes the fallback set
`received = 5 > sent = 4`, violating the invariant as claimed. -/
theorem C5_counterexample :
    (probe_one ⟨"Google DNS", "8.8.8.8", "icmp"⟩ "T"
        (PingOutcome.ok "time=1ms time=1ms time=1ms time=1ms time=1ms")
        (HttpOutcome.fail "conn")).sent = some 4 ∧
    (probe_one ⟨"Google DNS", "8.8.8.8", "icmp"⟩ "T"
        (PingOutcome.ok "time=1ms time=1ms time=1ms time=1ms time=1ms")
        (HttpOutcome.fail "conn")).received = some 5 := by
  have hw : winSearch "time=1ms time=1ms time=1ms time=1ms time=1ms".toList = none := by
    decide
  have hx : posixSearch "time=1ms time=1ms time=1ms time=1ms time=1ms".toList = none := by
    decide
  have hl : timeFindall "time=1ms time=1ms time=1ms time=1ms time=1ms".toList
      = [1, 1, 1, 1, 1] := by decide
  have hloss : ¬ 100 ≤ (run_ping PING_COUNT
      (PingOutcome.ok "time=1ms time=1ms time=1ms time=1ms time=1ms")).packet_loss_pct := by
    simp only [run_ping, hw, hx, hl]
    norm_num [PING_COUNT]
  rw [probe_one_icmp_nofb _ _ _ _ (by decide) hloss]
  exact ⟨by decide, by decide⟩

/-- C6 (amended): on the fallback path — the ping process failed, or no
summary pattern matched — `packet_loss_pct = 100` holds exactly when
`received = 0` (for a positive configured count).  (As stated, with
summary-parsed outputs included, the claim is false: `received` and
`packet_loss_pct` are read independently from the text; see the
counterexample.) -/
theorem C6_loss100_iff_received0 (count : ℕ) (po : PingOutcome)
    (hc : 0 < count) (h : usesFallback po = true) :
    ((run_ping count po).packet_loss_pct = 100 ↔ (run_ping count po).received = 0) := by
  cases po with
  | fail m => simp [run_ping]
  | ok out =>
    simp only [usesFallback, Bool.and_eq_true, Option.isNone_iff_eq_none] at h
    obtain ⟨hw, hx⟩ := h
    simp only [run_ping, hw, hx]
    have hc2 : ((count : ℚ)) ≠ 0 := Nat.cast_ne_zero.mpr hc.ne'
    constructor
    · intro hE
      rw [div_mul_eq_mul_div, div_eq_iff hc2] at hE
      have hL : (((timeFindall out.toList).length : ℚ)) = 0 := by linarith
      exact_mod_cast hL
    · intro hE
      rw [hE]
      rw [Nat.cast_zero, sub_zero, div_self hc2, one_mul]

/-- C6 witness: fallback output with a single rtt token — 75 percent
estimated loss and one received packet — satisfies the equivalence
(both sides false). -/
theorem C6_witness :
    0 < 4 ∧ usesFallback (PingOutcome.ok "time=1ms") = true ∧
    ((run_ping 4 (PingOutcome.ok "time=1ms")).packet_loss_pct = 100 ↔
      (run_ping 4 (PingOutcome.ok "time=1ms")).received = 0) :=
  ⟨by decide, by decide,
    C6_loss100_iff_received0 4 (PingOutcome.ok "time=1ms") (by decide) (by decide)⟩

/-- C6 counterexample: a Windows summary reading "Received = 0" but
"(0% loss)" is parsed verbatim — the Measurement has `received = 0`
with `packet_loss_pct = 0`, so the claimed equivalence fails on a
summary-parsed output. -/
theorem C6_counterexample :
    (probe_one ⟨"Google DNS", "8.8.8.8", "icmp"⟩ "T"
        (PingOutcome.ok "Packets: Sent = 4, Received = 0, Lost = 4 (0% loss)")
        (HttpOutcome.fail "conn")).received = some 0 ∧
    (probe_one ⟨"Google DNS", "8.8.8.8", "icmp"⟩ "T"
        (PingOutcome.ok "Packets: Sent = 4, Received = 0, Lost = 4 (0% loss)")
        (HttpOutcome.fail "conn")).packet_loss_pct = some 0 ∧
    ¬ ((probe_one ⟨"Google DNS", "8.8.8.8", "icmp"⟩ "T"
        (PingOutcome.ok "Packets: Sent = 4, Received = 0, Lost = 4 (0% loss)")
        (HttpOutcome.fail "conn")).packet_loss_pct = some 100 ↔
      (probe_one ⟨"Google DNS", "8.8.8.8", "icmp"⟩ "T"
        (PingOutcome.ok "Packets: Sent = 4, Received = 0, Lost = 4 (0% loss)")
        (HttpOutcome.fail "conn")).received = some 0) := by
  have hw : winSearch "Packets: Sent = 4, Received = 0, Lost = 4 (0% loss)".toList
      = some (4, 0, 4, 0) := by decide
  have hloss : (run_ping PING_COUNT
      (PingOutcome.ok "Packets: Sent = 4, Received = 0, Lost = 4 (0% loss)")).packet_loss_pct
      = 0 := by
    simp only [run_ping, hw]
    norm_num
  have hn : ¬ 100 ≤ (run_ping PING_COUNT
      (PingOutcome.ok "Packets: Sent = 4, Received = 0, Lost = 4 (0% loss)")).packet_loss_pct := by
    rw [hloss]; norm_num
  rw [probe_one_icmp_nofb _ _ _ _ (by decide) hn]
  refine ⟨by decide, ?_, ?_⟩
  · show some (run_ping PING_COUNT _).packet_loss_pct = some 0
    rw [hloss]
  · intro hiff
    have h0 : (some ((run_ping PING_COUNT
        (PingOutcome.ok "Packets: Sent = 4, Received = 0, Lost = 4 (0% loss)")).received) :
          Option ℕ) = some 0 := by decide
    have := hiff.mpr h0
    rw [hloss] at this
    simp at this

/-- C7 (amended): `avg_ms` is null exactly when the leg that provides it
came up empty — for a pure-ICMP Measurement (method "icmp", no HTTP
probe ran) when `rtts` is empty, and whenever an HTTP probe ran (method
"http", as primary or as total-loss fallback) when that probe returned
no timing; in the latter case `rtts` retained or backfilled from the
ICMP leg may be non-empty while `avg_ms` is null.  (The claimed "null
iff rtts empty and no HTTP timing" is false; see the counterexample.) -/
theorem C7_avg_null_iff (ep : Endpoint) (ts : String) (po : PingOutcome)
    (ho : HttpOutcome) :
    ((probe_one ep ts po ho).avg_ms = none ↔
      (((probe_one ep ts po ho).method = some "http" ∧ (run_http ho).avg_ms = none) ∨
       ((probe_one ep ts po ho).method = some "icmp" ∧ (probe_one ep ts po ho).rtts = []))) := by
  by_cases h1 : ep.prefer ≠ "http"
  · by_cases h2 : 100 ≤ (run_ping PING_COUNT po).packet_loss_pct
    · rw [probe_one_icmp_fb ep ts po ho h1 h2]
      simp
    · rw [probe_one_icmp_nofb ep ts po ho h1 h2]
      simpa using run_ping_avg_none_iff PING_COUNT po
  · cases hm : optQTruthy (run_ping PING_COUNT po).min_ms
    · rw [probe_one_http_falsy ep ts po ho (not_not.mp h1) hm]
      simp
    · rw [probe_one_http_truthy ep ts po ho (not_not.mp h1) hm]
      simp

/-- C7 counterexample: an HTTP-preferring endpoint whose HTTP probe
fails while the ICMP leg collects four rtts gives a Measurement with
`avg_ms` null, no HTTP timing captured, and non-empty `rtts` — the
claimed equivalence demands empty `rtts` here. -/
theorem C7_counterexample :
    (probe_one ⟨"Google", "www.google.com", "http"⟩ "T"
        (PingOutcome.ok "time=1ms time=2ms time=3ms time=4ms")
        (HttpOutcome.fail "conn")).avg_ms = none ∧
    (probe_one ⟨"Google", "www.google.com", "http"⟩ "T"
        (PingOutcome.ok "time=1ms time=2ms time=3ms time=4ms")
        (HttpOutcome.fail "conn")).http_status = none ∧
    (probe_one ⟨"Google", "www.google.com", "http"⟩ "T"
        (PingOutcome.ok "time=1ms time=2ms time=3ms time=4ms")
        (HttpOutcome.fail "conn")).rtts = [1, 2, 3, 4] := by
  have hw : winSearch "time=1ms time=2ms time=3ms time=4ms".toList = none := by decide
  have hx : posixSearch "time=1ms time=2ms time=3ms time=4ms".toList = none := by decide
  have hl : timeFindall "time=1ms time=2ms time=3ms time=4ms".toList = [1, 2, 3, 4] := by
    decide
  have hm : optQTruthy (run_ping PING_COUNT
      (PingOutcome.ok "time=1ms time=2ms time=3ms time=4ms")).min_ms = true := by
    simp only [run_ping, hw, hx, hl, List.foldl]
    norm_num [optQTruthy]
  rw [probe_one_http_truthy _ _ _ _ rfl hm]
  refine ⟨rfl, rfl, ?_⟩
  show (run_ping PING_COUNT _).rtts = [1, 2, 3, 4]
  simp only [run_ping, hw, hx, hl]

/-- C8 (amended): for an HTTP-preferring endpoint the HTTP probe is
primary (method "http" with `avg_ms`, `http_status`, `error` from it)
and the ICMP probe populates `sent`, `received`, `packet_loss_pct`;
`min_ms`/`max_ms`/`rtts` are backfilled from the ICMP result exactly
when the ICMP `min_ms` is truthy (non-null and non-zero) — the HTTP leg
never sets `min_ms`, so the source's `not row['min_ms']` test always
passes and the backfill is independent of whether the HTTP leg produced
timing.  (The claimed "discarded when the primary leg produced timing"
is false; see the counterexample.) -/
theorem C8_http_primary (ep : Endpoint) (ts : String) (po : PingOutcome)
    (ho : HttpOutcome) (hp : ep.prefer = "http") :
    (probe_one ep ts po ho).method = some "http" ∧
    (probe_one ep ts po ho).avg_ms = (run_http ho).avg_ms ∧
    (probe_one ep ts po ho).http_status = (run_http ho).http_status ∧
    (probe_one ep ts po ho).error = (run_http ho).error ∧
    (probe_one ep ts po ho).sent = some (run_ping PING_COUNT po).sent ∧
    (probe_one ep ts po ho).received = some (run_ping PING_COUNT po).received ∧
    (probe_one ep ts po ho).packet_loss_pct = some (run_ping PING_COUNT po).packet_loss_pct ∧
    (optQTruthy (run_ping PING_COUNT po).min_ms = true →
      (probe_one ep ts po ho).min_ms = (run_ping PING_COUNT po).min_ms ∧
      (probe_one ep ts po ho).max_ms = (run_ping PING_COUNT po).max_ms ∧
      (probe_one ep ts po ho).rtts = (run_ping PING_COUNT po).rtts) ∧
    (optQTruthy (run_ping PING_COUNT po).min_ms = false →
      (probe_one ep ts po ho).min_ms = none ∧
      (probe_one ep ts po ho).max_ms = none ∧
      (probe_one ep ts po ho).rtts = []) := by
  cases hm : optQTruthy (run_ping PING_COUNT po).min_ms
  · rw [probe_one_http_falsy ep ts po ho hp hm]
    exact ⟨rfl, rfl, rfl, rfl, rfl, rfl, rfl,
      fun hc => absurd hc (by decide),
      fun _ => ⟨rfl, rfl, rfl⟩⟩
  · rw [probe_one_http_truthy ep ts po ho hp hm]
    exact ⟨rfl, rfl, rfl, rfl, rfl, rfl, rfl,
      fun _ => ⟨rfl, rfl, rfl⟩,
      fun hc => absurd hc (by decide)⟩

/-- C8 witness: an HTTP-preferring endpoint whose ping process fails has
packet counters from the degraded ICMP result and nothing backfilled. -/
theorem C8_witness :
    (probe_one ⟨"Google", "www.google.com", "http"⟩ "T" (PingOutcome.fail "boom")
        (HttpOutcome.ok 50 200)).method = some "http" ∧
    (probe_one ⟨"Google", "www.google.com", "http"⟩ "T" (PingOutcome.fail "boom")
        (HttpOutcome.ok 50 200)).sent = some 4 ∧
    (probe_one ⟨"Google", "www.google.com", "http"⟩ "T" (PingOutcome.fail "boom")
        (HttpOutcome.ok 50 200)).rtts = [] := by
  have h := C8_http_primary ⟨"Google", "www.google.com", "http"⟩ "T"
    (PingOutcome.fail "boom") (HttpOutcome.ok 50 200) rfl
  exact ⟨h.1, h.2.2.2.2.1, (h.2.2.2.2.2.2.2.2 (by decide)).2.2⟩

/-- C8 counterexample: the HTTP leg produced timing (`avg_ms = 50`,
status 200), yet the ICMP `min_ms`/`max_ms`/`rtts` are still copied into
the Measurement instead of being discarded as the claim states. -/
theorem C8_counterexample :
    (probe_one ⟨"Google", "www.google.com", "http"⟩ "T"
        (PingOutcome.ok "time=1ms time=2ms time=3ms time=4ms")
        (HttpOutcome.ok 50 200)).avg_ms = some 50 ∧
    (probe_one ⟨"Google", "www.google.com", "http"⟩ "T"
        (PingOutcome.ok "time=1ms time=2ms time=3ms time=4ms")
        (HttpOutcome.ok 50 200)).min_ms = some 1 ∧
    (probe_one ⟨"Google", "www.google.com", "http"⟩ "T"
        (PingOutcome.ok "time=1ms time=2ms time=3ms time=4ms")
        (HttpOutcome.ok 50 200)).max_ms = some 4 ∧
    (probe_one ⟨"Google", "www.google.com", "http"⟩ "T"
        (PingOutcome.ok "time=1ms time=2ms time=3ms time=4ms")
        (HttpOutcome.ok 50 200)).rtts = [1, 2, 3, 4] := by
  have hw : winSearch "time=1ms time=2ms time=3ms time=4ms".toList = none := by decide
  have hx : posixSearch "time=1ms time=2ms time=3ms time=4ms".toList = none := by decide
  have hl : timeFindall "time=1ms time=2ms time=3ms time=4ms".toList = [1, 2, 3, 4] := by
    decide
  have hm : optQTruthy (run_ping PING_COUNT
      (PingOutcome.ok "time=1ms time=2ms time=3ms time=4ms")).min_ms = true := by
    simp only [run_ping, hw, hx, hl, List.foldl]
    norm_num [optQTruthy]
  rw [probe_one_http_truthy _ _ _ _ rfl hm]
  refine ⟨rfl, ?_, ?_, ?_⟩
  · show (run_ping PING_COUNT _).min_ms = some 1
    simp only [run_ping, hw, hx, hl, List.foldl]
    norm_num
  · show (run_ping PING_COUNT _).max_ms = some 4
    simp only [run_ping, hw, hx, hl, List.foldl]
    norm_num
  · show (run_ping PING_COUNT _).rtts = [1, 2, 3, 4]
    simp only [run_ping, hw, hx, hl]

/-- C9: when the external ping process fails to launch or exceeds the
total process timeout — `count * (timeout_ms / 1000) + 5` seconds, nine
seconds at the configured count 4 and per-packet timeout 1000 ms —
`run_ping` returns the degraded result `sent = count`, `received = 0`,
`packet_loss_pct = 100`, empty `rtts` and null timing statistics,
rather than raising. -/
theorem C9_ping_failure_degraded (count : ℕ) (msg : String) :
    run_ping count (PingOutcome.fail msg) =
      ⟨count, 0, 100, [], none, none, none, msg⟩ ∧
    subprocessTimeoutS PING_COUNT PING_TIMEOUT_MS = 9 :=
  ⟨rfl, by norm_num [subprocessTimeoutS, PING_COUNT, PING_TIMEOUT_MS]⟩

/-- C10: the rtts of every `run_ping` result are exactly the integers of
the `time=<digits>ms` / `time<<digits>ms` tokens of the raw output in
order of appearance, and a `time<1ms` token contributes the value 1 (not
0) to `rtts` and to the avg/min/max statistics computed from them. -/
theorem C10_rtt_tokens (count : ℕ) (out : String) :
    (run_ping count (PingOutcome.ok out)).rtts = timeFindall out.toList ∧
    timeFindall "time=14ms x time<1ms y time=3ms".toList = [14, 1, 3] ∧
    (run_ping 4 (PingOutcome.ok "time<1ms")).rtts = [1] ∧
    (run_ping 4 (PingOutcome.ok "time<1ms")).avg_ms = some 1 ∧
    (run_ping 4 (PingOutcome.ok "time<1ms")).min_ms = some 1 ∧
    (run_ping 4 (PingOutcome.ok "time<1ms")).max_ms = some 1 := by
  have hl : timeFindall ['t', 'i', 'm', 'e', '<', '1', 'm', 's'] = [1] := by decide
  have hw : winSearch ['t', 'i', 'm', 'e', '<', '1', 'm', 's'] = none := by decide
  have hx : posixSearch ['t', 'i', 'm', 'e', '<', '1', 'm', 's'] = none := by decide
  refine ⟨?_, by decide, by decide, ?_, ?_, ?_⟩
  · simp only [run_ping]
    split <;> rfl
  all_goals simp [run_ping, hl, hw, hx]
